import Mathlib

/-!
Verification development for the codex-switch repository.

The repository ships the React/TypeScript console (`src/App.tsx`, an earlier
variant of the same component, `src/api.ts`, `src/types.ts`) together with a
design document for the Rust core (vault manager, switch engine, quota
prober).  The UI-side functions below are shallow embeddings of the
TypeScript source; the core subsystems, whose Rust sources are not part of
the repository snapshot, are modelled from the specification text and are
marked as such in their doc comments.
-/

namespace CodexSwitch

/- ------------------------------------------------------------------ -/
/- Tag parsing (src/App.tsx `parseTags` and the earlier variant)       -/
/- ------------------------------------------------------------------ -/

/-- Characters treated as whitespace by JavaScript's `String.prototype.trim`
(the subset relevant to this development). -/
def isJsWhitespace (c : Char) : Bool :=
  c = ' ' || c = '\t' || c = '\n' || c = '\r' ||
  c = '\x0b' || c = '\x0c' || c = ' '

/-- `String.prototype.trim` on a character list: drop whitespace from both
ends. -/
def trimChars (s : List Char) : List Char :=
  ((s.dropWhile isJsWhitespace).reverse.dropWhile isJsWhitespace).reverse

/-- Delimiter class of the regex `[,，\n]` used by `parseTags` in
`src/App.tsx`. -/
def isDelimMain (c : Char) : Bool :=
  c = ',' || c = '，' || c = '\n'

/-- Delimiter class of the regex `[,\n，;；]` used by `parseTags` in the
earlier variant of the component. -/
def isDelimLegacy (c : Char) : Bool :=
  c = ',' || c = '\n' || c = '，' || c = ';' || c = '；'

/-- `String.prototype.split` with a single-character delimiter class:
cut the list at every delimiter character, keeping empty pieces. -/
def splitAux (p : Char → Bool) : List Char → List Char → List (List Char)
  | [], acc => [acc.reverse]
  | c :: cs, acc =>
      if p c then acc.reverse :: splitAux p cs []
      else splitAux p cs (c :: acc)

def splitChars (p : Char → Bool) (s : List Char) : List (List Char) :=
  splitAux p s []

/-- `parseTags` from `src/App.tsx`: split on `[,，\n]`, trim each piece,
drop empty pieces. -/
def parseTags (s : List Char) : List (List Char) :=
  ((splitChars isDelimMain s).map trimChars).filter (fun t => 0 < t.length)

/-- `parseTags` from the earlier variant of the component: split on
`[,\n，;；]`, trim each piece, drop empty pieces. -/
def parseTagsLegacy (s : List Char) : List (List Char) :=
  ((splitChars isDelimLegacy s).map trimChars).filter (fun t => 0 < t.length)

/-- String-valued wrapper of the `src/App.tsx` `parseTags`, as consumed by
the import handlers. -/
def parseTagsStr (s : String) : List String :=
  (parseTags s.data).map (fun cs => String.mk cs)

lemma splitAux_congr (p q : Char → Bool) (s : List Char)
    (h : ∀ c ∈ s, p c = q c) (acc : List Char) :
    splitAux p s acc = splitAux q s acc := by
  induction s generalizing acc with
  | nil => rfl
  | cons c cs ih =>
      have hc : p c = q c := h c (List.mem_cons_self c cs)
      have hcs : ∀ x ∈ cs, p x = q x := fun x hx => h x (List.mem_cons_of_mem c hx)
      simp only [splitAux, hc]
      by_cases hq : q c = true
      · simp [hq, ih hcs]
      · simp [hq, ih hcs]

/- ------------------------------------------------------------------ -/
/- UI handlers (src/App.tsx)                                           -/
/- ------------------------------------------------------------------ -/

/-- `String.prototype.trim` on Lean strings. -/
def jsTrimStr (s : String) : String :=
  String.mk (trimChars s.data)

/-- A backend command invocation issued through `invoke` (src/api.ts). -/
inductive BackendCall
  | initVault (masterPassword : String)
  | switchAccount (id : String) (forceRestart : Bool)
  | refreshQuota (accountId : Option String) (force : Bool)
  | createAccountFromLogin (name : String) (tags : List String)
  | rollbackToHistory (historyId : String)
  deriving DecidableEq, Repr

/-- The `SwitchHistory` record of src/types.ts, as seen by the UI. -/
structure SwitchHistoryItem where
  id : String
  from_account_id : Option String
  to_account_id : String
  snapshot_path : Option String
  result : String
  error_message : Option String

/-- JavaScript falsiness of a `string | null` value: `null` and the empty
string are falsy. -/
def strFalsy : Option String → Bool
  | none => true
  | some s => s.length = 0

/-- `handleInitVault` from `src/App.tsx`: if the trimmed master password is
shorter than 8 characters, show an error notice and issue no backend call;
otherwise invoke `init_vault` with the trimmed password.  Returns the list
of backend invocations performed. -/
def handleInitVault (masterPassword : String) : List BackendCall :=
  if (jsTrimStr masterPassword).length < 8 then []
  else [.initVault (jsTrimStr masterPassword)]

/-- `executeSwitch` from `src/App.tsx`: with the vault locked
(`vault_status.ok = false`) it shows an error notice and returns before any
backend call; otherwise it invokes `switch_account`. -/
def executeSwitch (vaultUnlocked : Bool) (accountId : String)
    (forceRestart : Bool) : List BackendCall :=
  if !vaultUnlocked then []
  else [.switchAccount accountId forceRestart]

/-- `executeRefreshQuota` from `src/App.tsx`: with the vault locked it shows
an error notice and returns before any backend call; otherwise it invokes
`refresh_quota` with `force = true`. -/
def executeRefreshQuota (vaultUnlocked : Bool) (accountId : Option String) :
    List BackendCall :=
  if !vaultUnlocked then []
  else [.refreshQuota accountId true]

/-- `handleImportAccountByLogin` from `src/App.tsx`: with the vault locked it
shows an error notice and returns before any backend call; otherwise it
invokes `create_account_from_login` with the trimmed name and parsed tags. -/
def handleImportAccountByLogin (vaultUnlocked : Bool) (name : String)
    (tags : String) : List BackendCall :=
  if !vaultUnlocked then []
  else [.createAccountFromLogin (jsTrimStr name) (parseTagsStr tags)]

/-- `handleRollback` from `src/App.tsx`: a history item whose
`snapshot_path` is falsy (in particular `null`) gets an error notice and no
backend call; otherwise the call is guarded by a confirmation dialog. -/
def handleRollback (item : SwitchHistoryItem) (confirmed : Bool) :
    List BackendCall :=
  if strFalsy item.snapshot_path then []
  else if !confirmed then []
  else [.rollbackToHistory item.id]

/-- The `disabled` attribute of the rollback button in the history view of
`src/App.tsx`: `!item.snapshot_path || isActionLoading(...)`. -/
def rollbackButtonDisabled (item : SwitchHistoryItem)
    (actionLoading : Bool) : Bool :=
  strFalsy item.snapshot_path || actionLoading

/- ------------------------------------------------------------------ -/
/- Vault manager                                                       -/
/- ------------------------------------------------------------------ -/

/-- Vault lifecycle states (spec §4.3). -/
inductive VaultPhase
  | uninitialized
  | locked
  | unlocked
  deriving DecidableEq, Repr

/-- Error kinds of the vault manager (spec §7). -/
inductive VaultErr
  | alreadyInitialized
  | passwordTooShort
  | notInitialized
  | notLocked
  | badPassword
  | throttled
  deriving DecidableEq, Repr

/-- Modelled from the spec: the vault manager state (§4.3).  The Rust
implementation (`src-tauri/src/app_state.rs`, `crypto.rs`) is not part of
the repository snapshot.  Key derivation and verifier decryption are
idealized: decrypting the verifier succeeds exactly when the supplied
password equals the password the vault was initialized with, so `master`
stands for the stored salt+params+verifier.  `failLog` records the
timestamps (seconds) of failed unlock attempts, newest first. -/
structure Vault where
  phase : VaultPhase
  master : Option String
  failLog : List Nat

/-- Rate-limit window in seconds (spec §4.3: per minute). -/
def rateWindow : Nat := 60

/-- Maximum failed unlock attempts per window (spec §4.3: N = 5). -/
def maxFailures : Nat := 5

/-- Number of failed attempts recorded within the window ending at `now`. -/
def recentFailures (v : Vault) (now : Nat) : Nat :=
  (v.failLog.filter (fun t => now < t + rateWindow)).length

/-- Modelled from the spec: `init(password)` (§4.3) requires
`Uninitialized` and a password of length ≥ 8; it stores the verifier and
transitions to `Unlocked`. -/
def init_vault (v : Vault) (password : String) : Except VaultErr Unit × Vault :=
  if v.phase ≠ .uninitialized then (.error .alreadyInitialized, v)
  else if password.length < 8 then (.error .passwordTooShort, v)
  else (.ok (), { phase := .unlocked, master := some password, failLog := [] })

/-- Modelled from the spec: `lock()` (§4.3) from any state other than
`Uninitialized` zeroizes the key and transitions to `Locked`. -/
def lock_vault (v : Vault) : Except VaultErr Unit × Vault :=
  if v.phase = .uninitialized then (.error .notInitialized, v)
  else (.ok (), { v with phase := .locked })

/-- Modelled from the spec: `unlock(password)` (§4.3) requires `Locked`;
at most `maxFailures` failed attempts are processed per window and any
excess attempt fails fast with `Throttled` regardless of the password;
otherwise verifier decryption decides between `Unlocked` and
`BadPassword`, and a failure is recorded in the rate-limit log. -/
def unlock_vault (v : Vault) (password : String) (now : Nat) :
    Except VaultErr Unit × Vault :=
  if v.phase ≠ .locked then (.error .notLocked, v)
  else if maxFailures ≤ recentFailures v now then (.error .throttled, v)
  else if v.master = some password then (.ok (), { v with phase := .unlocked })
  else (.error .badPassword, { v with failLog := now :: v.failLog })

/- ------------------------------------------------------------------ -/
/- Switch engine                                                       -/
/- ------------------------------------------------------------------ -/

/-- Account identifiers (UUID-shaped in the source; opaque here). -/
abbrev AccountId := Nat

/-- Byte content of the live auth file / of a credential plaintext. -/
abbrev Content := List Nat

/-- `result` column of a `SwitchHistory` row (spec §3). -/
inductive HResult
  | success
  | failed
  | rolled_back
  deriving DecidableEq, Repr

/-- A `SwitchHistory` row (spec §3).  `to_account_id` is an `Option`
because a rollback row copies the original row's possibly-null
`from_account_id` into it. -/
structure HistoryRow where
  id : Nat
  from_account_id : Option AccountId
  to_account_id : Option AccountId
  snapshot_path : Option Nat
  result : HResult
  error_message : Option String
  deriving DecidableEq, Repr

/-- Error kinds of the switch engine (spec §7). -/
inductive SwitchErr
  | vaultLocked
  | notFound
  | switchFailed
  | noSnapshot
  deriving DecidableEq, Repr

/-- Modelled from the spec: the state the switch engine acts on (§4.5).
The Rust implementation (`src-tauri/src/codex.rs`, `store.rs`) is not part
of the repository snapshot.  `accounts` maps an account id to the decrypted
plaintext the vault would unwrap for it; `vaultUnlocked = false` makes
every unwrap fail with `VaultLocked`.  `liveFile` is the content of the
live auth file (`none` when the file does not exist), `currentAccount` the
account the live file is known to correspond to, `snapshots` the snapshot
directory keyed by path, `history` the history table newest-first, and the
two counters produce fresh snapshot paths and history ids. -/
structure EngineState where
  accounts : List (AccountId × Content)
  vaultUnlocked : Bool
  liveFile : Option Content
  currentAccount : Option AccountId
  snapshots : List (Nat × Content)
  history : List HistoryRow
  nextSnapId : Nat
  nextHistId : Nat
  deriving DecidableEq, Repr

/-- Association-list lookup used for accounts and snapshots. -/
def lookupId {α : Type} (l : List (Nat × α)) (k : Nat) : Option α :=
  (l.find? (fun p => p.1 = k)).map (fun p => p.2)

/-- Modelled from the spec: `switch(account_id, force_restart)` (§4.5).
Unwrap the account's plaintext (fail `VaultLocked` when locked, `NotFound`
when the id is absent); snapshot the live file when it exists; write the
plaintext to a temporary file and rename it over the target.  `renameOk`
is the environment's verdict on the atomic rename: on success the live file
holds the plaintext and a `success` history row is appended; on failure the
target is untouched, the snapshot is kept, a `failed` row is appended and
the call returns `SwitchFailed`.  Process termination under
`force_restart` does not touch this state.  Returns the new history id on
success. -/
def switch (st : EngineState) (aid : AccountId) (forceRestart : Bool)
    (renameOk : Bool) : Except SwitchErr Nat × EngineState :=
  if !st.vaultUnlocked then (.error .vaultLocked, st)
  else
    match lookupId st.accounts aid with
    | none => (.error .notFound, st)
    | some pt =>
      let snapPath : Option Nat :=
        match st.liveFile with
        | some _ => some st.nextSnapId
        | none => none
      let snapshots : List (Nat × Content) :=
        match st.liveFile with
        | some content => (st.nextSnapId, content) :: st.snapshots
        | none => st.snapshots
      let nextSnapId : Nat :=
        match st.liveFile with
        | some _ => st.nextSnapId + 1
        | none => st.nextSnapId
      if renameOk then
        let row : HistoryRow :=
          ⟨st.nextHistId, st.currentAccount, some aid, snapPath, .success, none⟩
        (.ok st.nextHistId,
          { st with
              liveFile := some pt
              currentAccount := some aid
              snapshots := snapshots
              history := row :: st.history
              nextSnapId := nextSnapId
              nextHistId := st.nextHistId + 1 })
      else
        let row : HistoryRow :=
          ⟨st.nextHistId, st.currentAccount, some aid, snapPath, .failed,
            some "rename failed"⟩
        (.error .switchFailed,
          { st with
              snapshots := snapshots
              history := row :: st.history
              nextSnapId := nextSnapId
              nextHistId := st.nextHistId + 1 })

/-- Modelled from the spec: `rollback(history_id)` (§4.5).  Look up the
history row and require a non-null `snapshot_path` (else `NoSnapshot`);
atomically replace the live file with the snapshot content; append a new
history row with `result = rolled_back`, `from_account_id` the original
row's `to_account_id` and `to_account_id` the original row's
`from_account_id`.  The referenced snapshot file is not deleted. -/
def rollback (st : EngineState) (hid : Nat) (renameOk : Bool) :
    Except SwitchErr Nat × EngineState :=
  match st.history.find? (fun r => r.id = hid) with
  | none => (.error .notFound, st)
  | some row =>
    match row.snapshot_path with
    | none => (.error .noSnapshot, st)
    | some p =>
      match lookupId st.snapshots p with
      | none => (.error .notFound, st)
      | some content =>
        if renameOk then
          let newRow : HistoryRow :=
            ⟨st.nextHistId, row.to_account_id, row.from_account_id, none,
              .rolled_back, none⟩
          (.ok st.nextHistId,
            { st with
                liveFile := some content
                currentAccount := row.from_account_id
                history := newRow :: st.history
                nextHistId := st.nextHistId + 1 })
        else
          (.error .switchFailed, st)

/- ------------------------------------------------------------------ -/
/- Quota prober                                                        -/
/- ------------------------------------------------------------------ -/

/-- `mode` of a quota snapshot (spec §3). -/
inductive QMode
  | precise
  | status
  | unknown
  deriving DecidableEq, Repr

/-- `quota_state` of a quota snapshot (spec §3). -/
inductive QState
  | available
  | near_limit
  | exhausted
  | unknown
  deriving DecidableEq, Repr

/-- A `QuotaSnapshot` row (spec §3; mirrored by src/types.ts), restricted
to the per-probe fields (ids and timestamps omitted). -/
structure QuotaSnapshot where
  mode : QMode
  remaining_value : Option Int
  remaining_unit : Option String
  quota_state : QState
  source : String
  confidence : Nat
  reason : Option String
  deriving DecidableEq, Repr

/-- Outcome of one primary-path probe (`/backend-api/api/codex/usage` or
`/backend-api/wham/usage`, spec §4.6): a 2xx response carrying the parsed
`X-Codex-Remaining` / `X-Codex-Unit` headers when present, a non-2xx HTTP
status, or a transport failure. -/
inductive PrimaryResult
  | ok (remaining : Option Int) (unit : Option String)
  | httpError (code : Nat)
  | netError (msg : String)
  deriving DecidableEq, Repr

/-- Outcome of the fallback status probe (spec §4.6): a 200 response whose
plan field may or may not be non-empty, a non-success HTTP status together
with whether the body signalled `quota_exceeded`, or a transport
failure. -/
inductive FallbackResult
  | ok (planNonEmpty : Bool)
  | httpError (code : Nat) (quotaExceeded : Bool)
  | netError (msg : String)
  deriving DecidableEq, Repr

/-- Modelled from the spec: the fallback HTTP-code mapping (§4.6).
200 with non-empty plan → `available`; 402 or `quota_exceeded` →
`exhausted`; 429 → `near_limit`; anything else yields a short error
label instead of a status. -/
def fallbackStatus : FallbackResult → Except String QState
  | .ok planNonEmpty =>
      if planNonEmpty then .ok .available else .error "empty plan"
  | .httpError code quotaExceeded =>
      if code = 402 || quotaExceeded then .ok .exhausted
      else if code = 429 then .ok .near_limit
      else .error ("http " ++ toString code)
  | .netError m => .error m

/-- A primary probe yields a precise reading exactly when it returned 2xx
with a present remaining value (spec §4.6). -/
def primaryPrecise : PrimaryResult → Option (Int × Option String)
  | .ok (some r) u => some (r, u)
  | .ok none _ => none
  | .httpError _ => none
  | .netError _ => none

/-- Short error label of a failed primary probe, used in the `reason` of a
degraded snapshot. -/
def primaryFailure : PrimaryResult → String
  | .ok _ _ => "missing remaining header"
  | .httpError c => "http " ++ toString c
  | .netError m => m

/-- A precise snapshot built from a primary-path reading. -/
def preciseSnapshot (r : Int) (u : Option String) (src : String)
    (conf : Nat) : QuotaSnapshot :=
  { mode := .precise
    remaining_value := some r
    remaining_unit := u
    quota_state := if r ≤ 0 then .exhausted else .available
    source := src
    confidence := conf
    reason := none }

/-- Modelled from the spec: one refresh of an account's quota (§4.6).
`a1` is the first primary attempt (`/api/codex/usage`), `a2` the second
(`/wham/usage`), `fb` the fallback status probe.  A precise result wins
with confidence 90 (first attempt) or 80 (second); otherwise a fallback
status yields a `status` snapshot with confidence 50; if all probes fail
the refresh still produces a snapshot, with `mode = unknown`,
`confidence = 0` and a populated `reason`. -/
def refreshSnapshot (a1 a2 : PrimaryResult) (fb : FallbackResult) :
    QuotaSnapshot :=
  match primaryPrecise a1 with
  | some (r, u) => preciseSnapshot r u "primary" 90
  | none =>
    match primaryPrecise a2 with
    | some (r, u) => preciseSnapshot r u "secondary" 80
    | none =>
      match fallbackStatus fb with
      | .ok st =>
          { mode := .status
            remaining_value := none
            remaining_unit := none
            quota_state := st
            source := "fallback-status"
            confidence := 50
            reason := none }
      | .error msg =>
          { mode := .unknown
            remaining_value := none
            remaining_unit := none
            quota_state := .unknown
            source := "probe-failed"
            confidence := 0
            reason := some msg }

/-- Modelled from the spec: the fixed confidence scale of §4.6, as a
function of a snapshot's mode and probe-path source. -/
def specConfidence : QMode → String → Nat
  | .precise, "primary" => 90
  | .precise, _ => 80
  | .status, _ => 50
  | .unknown, _ => 0

/-- The mode/state coupling invariant on quota snapshots (spec §3). -/
def modeStateCoupled (s : QuotaSnapshot) : Prop :=
  (s.mode = .precise → s.remaining_value ≠ none) ∧
  (s.mode = .status →
    s.quota_state = .available ∨ s.quota_state = .near_limit ∨
      s.quota_state = .exhausted) ∧
  (s.mode = .unknown → s.quota_state = .unknown ∧ s.reason ≠ none)

/- ------------------------------------------------------------------ -/
/- Theorems                                                            -/
/- ------------------------------------------------------------------ -/

lemma delim_eq_of_no_semicolon (c : Char) (h1 : c ≠ ';') (h2 : c ≠ '；') :
    isDelimMain c = isDelimLegacy c := by
  simp only [isDelimMain, isDelimLegacy]
  by_cases ha : c = ',' <;> by_cases hb : c = '，' <;> by_cases hc : c = '\n' <;>
    simp [ha, hb, hc, h1, h2]

/-- C9 (counterexample): the two `parseTags` versions differ on the input
`a;b` — the `src/App.tsx` version keeps it whole, the earlier variant splits
it at the semicolon. -/
theorem parseTags_variants_disagree :
    parseTags ['a', ';', 'b'] ≠ parseTagsLegacy ['a', ';', 'b'] := by
  decide

/-- C9 (amended): the two versions of `parseTags` agree on every input that
contains neither `;` nor `；`; on inputs containing a semicolon they may
differ. -/
theorem parseTags_agree_without_semicolons (s : List Char)
    (h : ∀ c ∈ s, c ≠ ';' ∧ c ≠ '；') :
    parseTags s = parseTagsLegacy s := by
  unfold parseTags parseTagsLegacy splitChars
  rw [splitAux_congr isDelimMain isDelimLegacy s
    (fun c hc => delim_eq_of_no_semicolon c (h c hc).1 (h c hc).2) []]

/-- C9 witness: the amended agreement applied to the concrete semicolon-free
input `a, b`. -/
theorem parseTags_agree_without_semicolons_witness :
    (∀ c ∈ ['a', ',', ' ', 'b'], c ≠ ';' ∧ c ≠ '；') ∧
      parseTags ['a', ',', ' ', 'b'] = parseTagsLegacy ['a', ',', ' ', 'b'] :=
  ⟨by decide, parseTags_agree_without_semicolons ['a', ',', ' ', 'b'] (by decide)⟩

/-- C10: while the last-fetched vault status has `ok = false`, the switch,
quota-refresh and login-import handlers of `src/App.tsx` perform no backend
invocation at all. -/
theorem locked_vault_blocks_ui_backend_calls (accountId : String)
    (forceRestart : Bool) (optId : Option String) (name tags : String) :
    executeSwitch false accountId forceRestart = [] ∧
    executeRefreshQuota false optId = [] ∧
    handleImportAccountByLogin false name tags = [] :=
  ⟨rfl, rfl, rfl⟩

/-- C8: `handleInitVault` in `src/App.tsx` issues no backend call when the
trimmed master password is shorter than 8 characters, every call it does
issue is `init_vault` with the trimmed password of length ≥ 8, and the
(spec-modelled) `init` itself never succeeds on a password shorter than 8. -/
theorem init_vault_password_min_length (masterPassword p : String)
    (v : Vault) :
    ((jsTrimStr masterPassword).length < 8 →
      handleInitVault masterPassword = []) ∧
    (∀ c ∈ handleInitVault masterPassword,
      c = .initVault (jsTrimStr masterPassword) ∧
        8 ≤ (jsTrimStr masterPassword).length) ∧
    (p.length < 8 → (init_vault v p).1 ≠ .ok ()) := by
  refine ⟨fun h => by simp [handleInitVault, h], fun c hc => ?_, fun hp => ?_⟩
  · unfold handleInitVault at hc
    by_cases h : (jsTrimStr masterPassword).length < 8
    · simp [h] at hc
    · simp [h] at hc
      exact ⟨hc, Nat.le_of_not_lt h⟩
  · unfold init_vault
    by_cases h1 : v.phase = .uninitialized
    · simp [h1, hp]
    · simp [h1]

/-- C7: the (spec-modelled) `rollback` fails with `NoSnapshot` when the
referenced history row has a null `snapshot_path` and succeeds only when
that row carries a snapshot path; the `src/App.tsx` history view neither
invokes the rollback command for an item with a null `snapshot_path` (the
handler shows an error and returns) nor leaves its rollback button
enabled. -/
theorem rollback_requires_snapshot (st : EngineState) (hid : Nat)
    (ro : Bool) (item : SwitchHistoryItem) (confirmed loading : Bool) :
    ((∃ row, st.history.find? (fun r => r.id = hid) = some row ∧
        row.snapshot_path = none) →
      (rollback st hid ro).1 = .error .noSnapshot) ∧
    (∀ h, (rollback st hid ro).1 = .ok h →
      ∃ row p, st.history.find? (fun r => r.id = hid) = some row ∧
        row.snapshot_path = some p) ∧
    (item.snapshot_path = none → handleRollback item confirmed = []) ∧
    (item.snapshot_path = none → rollbackButtonDisabled item loading = true) := by
  refine ⟨?_, ?_, ?_, ?_⟩
  · rintro ⟨row, hfind, hsnap⟩
    simp [rollback, hfind, hsnap]
  · intro h hok
    cases hfind : st.history.find? (fun r => r.id = hid) with
    | none => simp [rollback, hfind] at hok
    | some row =>
      cases hsnap : row.snapshot_path with
      | none => simp [rollback, hfind, hsnap] at hok
      | some p => exact ⟨row, p, rfl, hsnap⟩
  · intro h
    simp [handleRollback, strFalsy, h]
  · intro h
    simp [rollbackButtonDisabled, strFalsy, h]

lemma fallbackStatus_ok_cases (fb : FallbackResult) (st : QState)
    (h : fallbackStatus fb = .ok st) :
    st = .available ∨ st = .near_limit ∨ st = .exhausted := by
  cases fb with
  | ok planNonEmpty =>
      cases planNonEmpty <;> simp [fallbackStatus] at h <;> simp [← h]
  | httpError code quotaExceeded =>
      unfold fallbackStatus at h
      by_cases h1 : code = 402 || quotaExceeded
      · simp [h1] at h
        simp [← h]
      · simp [h1] at h
        by_cases h2 : code = 429
        · simp [h2] at h
          simp [← h]
        · simp [h2] at h
  | netError m => simp [fallbackStatus] at h

/-- C5: every snapshot the quota prober produces satisfies the mode/state
coupling of spec §3: `precise` carries a remaining value, `status` carries a
definite state, `unknown` carries the unknown state and a reason. -/
theorem refreshSnapshot_mode_state_coupled (a1 a2 : PrimaryResult)
    (fb : FallbackResult) :
    modeStateCoupled (refreshSnapshot a1 a2 fb) := by
  unfold refreshSnapshot
  cases h1 : primaryPrecise a1 with
  | some ru =>
      obtain ⟨r, u⟩ := ru
      simp [modeStateCoupled, preciseSnapshot]
  | none =>
      cases h2 : primaryPrecise a2 with
      | some ru =>
          obtain ⟨r, u⟩ := ru
          simp [modeStateCoupled, preciseSnapshot]
      | none =>
          cases h3 : fallbackStatus fb with
          | ok st =>
              have := fallbackStatus_ok_cases fb st h3
              simp [modeStateCoupled, this]
          | error msg =>
              simp [modeStateCoupled]

/-- C6: the prober's confidence is exactly the fixed scale (precise from the
first primary attempt 90, from the second 80, status 50, unknown 0); with
the primary path answering 500 and the fallback 429 the snapshot is a
`status`/`near_limit` one with confidence 50 and a null reason; and when
every probe fails the refresh still yields a snapshot, with `mode =
unknown`, `confidence = 0` and a populated reason. -/
theorem refreshSnapshot_confidence_scale (a1 a2 : PrimaryResult)
    (fb : FallbackResult) (m1 m2 m3 : String) :
    (refreshSnapshot a1 a2 fb).confidence =
      specConfidence (refreshSnapshot a1 a2 fb).mode
        (refreshSnapshot a1 a2 fb).source ∧
    refreshSnapshot (.httpError 500) (.httpError 500)
        (.httpError 429 false) =
      { mode := .status
        remaining_value := none
        remaining_unit := none
        quota_state := .near_limit
        source := "fallback-status"
        confidence := 50
        reason := none } ∧
    (refreshSnapshot (.netError m1) (.netError m2) (.netError m3)).mode =
      .unknown ∧
    (refreshSnapshot (.netError m1) (.netError m2)
      (.netError m3)).confidence = 0 ∧
    (refreshSnapshot (.netError m1) (.netError m2) (.netError m3)).reason =
      some m3 := by
  refine ⟨?_, by decide, ?_, ?_, ?_⟩ <;>
    first
    | (unfold refreshSnapshot
       cases h1 : primaryPrecise a1 with
       | some ru =>
           obtain ⟨r, u⟩ := ru
           simp [preciseSnapshot, specConfidence]
       | none =>
           cases h2 : primaryPrecise a2 with
           | some ru =>
               obtain ⟨r, u⟩ := ru
               simp [preciseSnapshot, specConfidence]
           | none =>
               cases h3 : fallbackStatus fb with
               | ok st => simp [specConfidence]
               | error msg => simp [specConfidence])
    | simp [refreshSnapshot, primaryPrecise, fallbackStatus]

/-- Initialize a fresh vault and lock it: the state from which spec §8's
unlock properties are asserted. -/
def initThenLock (u : Vault) (pw : String) : Vault :=
  (lock_vault (init_vault u pw).2).2

lemma initThenLock_eq (u : Vault) (pw : String)
    (hu : u.phase = .uninitialized) (hlen : 8 ≤ pw.length) :
    initThenLock u pw = ⟨.locked, some pw, []⟩ := by
  simp [initThenLock, init_vault, lock_vault, hu, Nat.not_lt.2 hlen]

/-- C4: from the state reached by `init(password)` and `lock`, `unlock` with
the same password succeeds and unlocks; with any other string it fails with
`BadPassword`; and on any locked vault that has already processed
`maxFailures` failed attempts within the window, any further unlock fails
fast with `Throttled` regardless of the password supplied. -/
theorem unlock_after_init_spec (u : Vault) (pw q : String) (now : Nat)
    (hu : u.phase = .uninitialized) (hlen : 8 ≤ pw.length) :
    ((unlock_vault (initThenLock u pw) pw now).1 = .ok () ∧
      (unlock_vault (initThenLock u pw) pw now).2.phase = .unlocked) ∧
    (q ≠ pw →
      (unlock_vault (initThenLock u pw) q now).1 = .error .badPassword) ∧
    (∀ w : Vault, w.phase = .locked →
      maxFailures ≤ recentFailures w now →
        ∀ r, (unlock_vault w r now).1 = .error .throttled) := by
  rw [initThenLock_eq u pw hu hlen]
  refine ⟨?_, fun hq => ?_, fun w hw hrate r => ?_⟩
  · simp [unlock_vault, recentFailures, maxFailures]
  · have hne : pw ≠ q := fun h => hq h.symm
    simp [unlock_vault, recentFailures, maxFailures, hne]
  · simp [unlock_vault, hw, hrate]

/-- C4 witness: the unlock properties at a concrete fresh vault, the
password `password1` and the wrong password `different1`. -/
theorem unlock_after_init_spec_witness :
    (Vault.mk .uninitialized none []).phase = .uninitialized ∧
    8 ≤ ("password1" : String).length ∧
    (((unlock_vault (initThenLock ⟨.uninitialized, none, []⟩ "password1")
          "password1" 0).1 = .ok () ∧
        (unlock_vault (initThenLock ⟨.uninitialized, none, []⟩ "password1")
          "password1" 0).2.phase = .unlocked) ∧
      (("different1" : String) ≠ "password1" →
        (unlock_vault (initThenLock ⟨.uninitialized, none, []⟩ "password1")
          "different1" 0).1 = .error .badPassword) ∧
      (∀ w : Vault, w.phase = .locked →
        maxFailures ≤ recentFailures w 0 →
          ∀ r, (unlock_vault w r 0).1 = .error .throttled)) :=
  ⟨rfl, by decide,
    unlock_after_init_spec ⟨.uninitialized, none, []⟩ "password1"
      "different1" 0 rfl (by decide)⟩

/-- C1: every `switch` call that returns success leaves the live auth file
byte-equal to the plaintext of the target account, and the history row just
written has `result = success` and `to_account_id` the target account. -/
theorem switch_success_live_file (st : EngineState) (aid : AccountId)
    (forceRestart renameOk : Bool) (hid : Nat) (st' : EngineState)
    (h : switch st aid forceRestart renameOk = (.ok hid, st')) :
    ∃ pt, lookupId st.accounts aid = some pt ∧
      st'.liveFile = some pt ∧
      ∃ row, st'.history.head? = some row ∧ row.result = .success ∧
        row.to_account_id = some aid := by
  cases hv : st.vaultUnlocked with
  | false => simp [switch, hv] at h
  | true =>
    cases hA : lookupId st.accounts aid with
    | none => simp [switch, hv, hA] at h
    | some pt =>
      cases renameOk with
      | false => simp [switch, hv, hA] at h
      | true =>
        simp only [switch, hv, hA, Bool.not_true, Bool.false_eq_true,
          if_false, if_true, Prod.mk.injEq, Except.ok.injEq] at h
        obtain ⟨h1, h2⟩ := h
        subst h2
        exact ⟨pt, rfl, rfl, ⟨_, rfl, rfl, rfl⟩⟩

/-- C2: every `switch` call that fails with `SwitchFailed` leaves the live
auth file exactly as it was before the call, and a history row with
`result = failed` is recorded. -/
theorem switch_failed_untouched (st : EngineState) (aid : AccountId)
    (forceRestart renameOk : Bool) (st' : EngineState)
    (h : switch st aid forceRestart renameOk = (.error .switchFailed, st')) :
    st'.liveFile = st.liveFile ∧
    ∃ row, st'.history.head? = some row ∧ row.result = .failed := by
  cases hv : st.vaultUnlocked with
  | false => simp [switch, hv] at h
  | true =>
    cases hA : lookupId st.accounts aid with
    | none => simp [switch, hv, hA] at h
    | some pt =>
      cases renameOk with
      | true => simp [switch, hv, hA] at h
      | false =>
        simp only [switch, hv, hA, Bool.not_true, Bool.false_eq_true,
          if_false, if_true, Prod.mk.injEq] at h
        obtain ⟨_, h2⟩ := h
        subst h2
        exact ⟨rfl, ⟨_, rfl, rfl⟩⟩

lemma lookupId_cons_self {α : Type} (k : Nat) (v : α) (l : List (Nat × α)) :
    lookupId ((k, v) :: l) k = some v := by
  simp [lookupId, List.find?]

/-- C3: switching to A, then to B, then rolling back the history row of the
B-switch restores the live file to the plaintext of A, and the rollback
appends a history row with `result = rolled_back` whose `from_account_id`
is that row's `to_account_id` and whose `to_account_id` is that row's
`from_account_id`. -/
theorem switch_switch_rollback_restores (st : EngineState)
    (A B : AccountId) (ptA ptB : Content) (fr1 fr2 : Bool)
    (hUnlocked : st.vaultUnlocked = true)
    (hA : lookupId st.accounts A = some ptA)
    (hB : lookupId st.accounts B = some ptB) :
    (switch st A fr1 true).1 = .ok st.nextHistId ∧
    (switch (switch st A fr1 true).2 B fr2 true).1 =
      .ok (switch st A fr1 true).2.nextHistId ∧
    (rollback (switch (switch st A fr1 true).2 B fr2 true).2
        (switch st A fr1 true).2.nextHistId true).1 =
      .ok (switch (switch st A fr1 true).2 B fr2 true).2.nextHistId ∧
    (rollback (switch (switch st A fr1 true).2 B fr2 true).2
        (switch st A fr1 true).2.nextHistId true).2.liveFile = some ptA ∧
    ∃ newRow origRow,
      (rollback (switch (switch st A fr1 true).2 B fr2 true).2
          (switch st A fr1 true).2.nextHistId true).2.history.head? =
        some newRow ∧
      (switch (switch st A fr1 true).2 B fr2 true).2.history.find?
          (fun r => r.id = (switch st A fr1 true).2.nextHistId) =
        some origRow ∧
      origRow.result = .success ∧ origRow.to_account_id = some B ∧
      newRow.result = .rolled_back ∧
      newRow.from_account_id = origRow.to_account_id ∧
      newRow.to_account_id = origRow.from_account_id := by
  cases hLF : st.liveFile with
  | none =>
      refine ⟨?_, ?_, ?_, ?_, ?_⟩ <;>
        simp [switch, rollback, hUnlocked, hA, hB, hLF, List.find?,
          lookupId_cons_self]
  | some c =>
      refine ⟨?_, ?_, ?_, ?_, ?_⟩ <;>
        simp [switch, rollback, hUnlocked, hA, hB, hLF, List.find?,
          lookupId_cons_self]

/-- A concrete two-account engine state (unlocked vault, no live file yet)
used by the witnesses. -/
def demoState : EngineState :=
  { accounts := [(0, [1]), (1, [2])]
    vaultUnlocked := true
    liveFile := none
    currentAccount := none
    snapshots := []
    history := []
    nextSnapId := 0
    nextHistId := 0 }

/-- The state after a successful `switch demoState 0`. -/
def demoSwitched : EngineState :=
  { accounts := [(0, [1]), (1, [2])]
    vaultUnlocked := true
    liveFile := some [1]
    currentAccount := some 0
    snapshots := []
    history := [⟨0, none, some 0, none, .success, none⟩]
    nextSnapId := 0
    nextHistId := 1 }

/-- The state after a `switch demoState 0` whose rename failed. -/
def demoFailed : EngineState :=
  { accounts := [(0, [1]), (1, [2])]
    vaultUnlocked := true
    liveFile := none
    currentAccount := none
    snapshots := []
    history := [⟨0, none, some 0, none, .failed, some "rename failed"⟩]
    nextSnapId := 0
    nextHistId := 1 }

/-- C1 witness: the success postcondition at the concrete state
`demoState` switching to account 0. -/
theorem switch_success_live_file_witness :
    switch demoState 0 true true = (.ok 0, demoSwitched) ∧
    (∃ pt, lookupId demoState.accounts 0 = some pt ∧
      demoSwitched.liveFile = some pt ∧
      ∃ row, demoSwitched.history.head? = some row ∧
        row.result = .success ∧ row.to_account_id = some 0) :=
  ⟨rfl,
    switch_success_live_file demoState 0 true true 0 demoSwitched rfl⟩

/-- C2 witness: the failure postcondition at the concrete state `demoState`
switching to account 0 with a failing rename. -/
theorem switch_failed_untouched_witness :
    switch demoState 0 true false = (.error .switchFailed, demoFailed) ∧
    (demoFailed.liveFile = demoState.liveFile ∧
      ∃ row, demoFailed.history.head? = some row ∧ row.result = .failed) :=
  ⟨rfl,
    switch_failed_untouched demoState 0 true false demoFailed rfl⟩

/-- C3 witness: the switch–switch–rollback round trip at the concrete state
`demoState` with accounts 0 and 1. -/
theorem switch_switch_rollback_restores_witness :
    demoState.vaultUnlocked = true ∧
    lookupId demoState.accounts 0 = some [1] ∧
    lookupId demoState.accounts 1 = some [2] ∧
    ((switch demoState 0 true true).1 = .ok demoState.nextHistId ∧
    (switch (switch demoState 0 true true).2 1 true true).1 =
      .ok (switch demoState 0 true true).2.nextHistId ∧
    (rollback (switch (switch demoState 0 true true).2 1 true true).2
        (switch demoState 0 true true).2.nextHistId true).1 =
      .ok (switch (switch demoState 0 true true).2 1 true true).2.nextHistId ∧
    (rollback (switch (switch demoState 0 true true).2 1 true true).2
        (switch demoState 0 true true).2.nextHistId true).2.liveFile =
      some [1] ∧
    ∃ newRow origRow,
      (rollback (switch (switch demoState 0 true true).2 1 true true).2
          (switch demoState 0 true true).2.nextHistId true).2.history.head? =
        some newRow ∧
      (switch (switch demoState 0 true true).2 1 true true).2.history.find?
          (fun r => r.id = (switch demoState 0 true true).2.nextHistId) =
        some origRow ∧
      origRow.result = .success ∧ origRow.to_account_id = some 1 ∧
      newRow.result = .rolled_back ∧
      newRow.from_account_id = origRow.to_account_id ∧
      newRow.to_account_id = origRow.from_account_id) :=
  ⟨rfl, by decide, by decide,
    switch_switch_rollback_restores demoState 0 1 [1] [2] true true rfl
      (by decide) (by decide)⟩

end CodexSwitch
